import Mathlib

/-!
Shallow embedding of the FilmSet analysis pipeline (App.tsx `executeAnalysis`,
`handleAnalysis`, `handleImportProject`, `renderScriptContent`) and of the
generation service (geminiService: `analyzeStage1/2/3`, `isRateLimitError`,
`generateAllVisuals`, `generateShotIdeasAndImages`, `generateStoryboardFromShots`).
External AI calls are modelled by explicit outcome environments; exceptions by
`Except`; JavaScript strings by `String`.
-/

/-- JS `s.includes(sub)` for a non-empty needle: the character sequence of
`sub` occurs contiguously somewhere in `s`. -/
def includesStr (s sub : String) : Bool :=
  (List.range (s.data.length + 1)).any (fun i => sub.data.isPrefixOf (s.data.drop i))

/-- JS `s.trim()`: strip whitespace from both ends, modelled structurally over
the character list. -/
def jsTrim (s : String) : String :=
  ⟨((s.data.dropWhile Char.isWhitespace).reverse.dropWhile Char.isWhitespace).reverse⟩

/-- A thrown JavaScript `Error`, identified by its message string. -/
structure JsError where
  message : String
deriving Repr, DecidableEq

/-- geminiService `isRateLimitError`: the message contains '429' or 'RESOURCE_EXHAUSTED'. -/
def isRateLimitError (e : JsError) : Bool :=
  includesStr e.message "429" || includesStr e.message "RESOURCE_EXHAUSTED"

/- ===== Data model (types.ts) ===== -/

structure Scene where
  scene_number : Nat
  setting : String
  summary : String
deriving Repr, DecidableEq

structure Act where
  act_number : Nat
  title : String
  scene_breakdown : List Scene
deriving Repr, DecidableEq

/-- types.ts `Character`; `screen_presence` is the literal string
'on-screen' or 'off-screen' (compared by string equality in the code). -/
structure Character where
  name : String
  description : String
  screen_presence : String
deriving Repr, DecidableEq

structure Synopsis where
  brief : String
  extended : String
deriving Repr, DecidableEq

structure IntegrityCheck where
  issues_found : Bool
  details : String
deriving Repr, DecidableEq

structure Stage1Result where
  page_count : Nat
  logline : String
  acts : List Act
  characters : List Character
  synopsis : Synopsis
  integrity_check : IntegrityCheck
deriving Repr, DecidableEq

structure CharacterProfile where
  name : String
  description : String
  screen_presence : String
  arc : String
  motivation : String
  image_base64 : Option String := none
deriving Repr, DecidableEq

structure Theme where
  theme : String
  prominence : Nat
deriving Repr, DecidableEq

structure TitledImage where
  title : String
  image_base64 : String
deriving Repr, DecidableEq

structure FinalRating where
  score : Nat
  justification : String
deriving Repr, DecidableEq

structure Stage2Result where
  title : String
  author : String
  genre : String
  tone : String
  logline : String
  world_and_setting : String
  character_profiles : List CharacterProfile
  treatment : String
  themes_and_motifs : List Theme
  comparable_titles : List String
  comparable_titles_visuals : Option (List TitledImage) := none
  target_audience : String
  visual_style_suggestion : String
  visual_style_images_base64 : Option (List String) := none
  final_rating : FinalRating
  completion_checklist : List String
  concept_art_base64 : Option String := none
deriving Repr, DecidableEq

/-- types.ts `Department` closed enumeration. -/
inductive Department where
  | ART | WARDROBE | MAKEUP | STUNTS | VFX | SFX
  | LOCATIONS | PROPS | TRANSPORT | CAST | OTHER
deriving Repr, DecidableEq

structure SceneProductionDetail where
  scene_number : Nat
  page_number : String
  location : String
  time_of_day : String
  estimated_length_eighths : Nat
  summary : String
deriving Repr, DecidableEq

structure CharacterProductionDetail where
  name : String
  role_type : String
  scene_appearances : List Nat
deriving Repr, DecidableEq

structure LocationProductionDetail where
  location : String
  scenes : List Nat
  is_unique : Bool
deriving Repr, DecidableEq

structure ProductionElement where
  name : String
  description : String
  department : Department
deriving Repr, DecidableEq

structure ScheduleDay where
  day : Nat
  scenes : String
  location : String
  notes : String
deriving Repr, DecidableEq

structure SchedulingSuggestions where
  total_shooting_days : Nat
  shooting_schedule : List ScheduleDay
  scene_grouping_suggestions : List String
  cast_scheduling_highlights : List String
  day_night_balance : String
  complexity_flags : List String
deriving Repr, DecidableEq

structure DepartmentalNote where
  department : Department
  notes : String
deriving Repr, DecidableEq

structure Stage3Result where
  scene_breakdown : List SceneProductionDetail
  character_breakdown : List CharacterProductionDetail
  location_breakdown : List LocationProductionDetail
  props_and_set_dressing : List ProductionElement
  wardrobe_and_makeup : List ProductionElement
  special_requirements : List ProductionElement
  scheduling_suggestions : SchedulingSuggestions
  departmental_notes : List DepartmentalNote
  risk_assessment : List String
deriving Repr, DecidableEq

structure ShotIdea where
  shot_number : Nat
  shot_type : String
  artistic_style : String
  description : String
  composition_and_framing : String
  lighting : String
  blocking : String
  costume_and_makeup : String
  art_design : String
  image_base64 : Option String := none
deriving Repr, DecidableEq

structure SceneOverview where
  setting_description : String
  lighting_mood : String
deriving Repr, DecidableEq

structure CharacterDesign where
  name : String
  description : String
  costume : String
deriving Repr, DecidableEq

structure StoryboardData where
  sceneDescription : String
  images : List String
  shotIdeas : Option (List ShotIdea) := none
deriving Repr, DecidableEq

/-- Modelled from the spec: `FullScene` and `extractScenes` are referenced by
App.tsx and SceneSelect.tsx but their definition file is not in src/; the spec
only lists "optional list of FullScene" as Project content. Fields follow the
usage in SceneSelect.tsx (`scene.scene_number`, `scene.heading`, `scene.content`). -/
structure FullScene where
  scene_number : Nat
  heading : String
  content : String
deriving Repr, DecidableEq

structure ShotIdeaStudioConfig where
  genre : String
  location : String
  characterRace : String
  skinTone : String
  artisticStyle : String
deriving Repr, DecidableEq

structure ImageStudioConfig where
  genre : String
  artisticStyle : String
  shotType : String
  location : String
  characterRace : String
  skinTone : String
  aspectRatio : String
deriving Repr, DecidableEq

structure ImageStudioState where
  mode : String
  prompt : String
  sourceImage : Option String
  characterReferenceImage : Option String
  locationReferenceImage : Option String
  resultImageBase64 : Option String
  analysisText : Option String
  isContinuation : Bool
  continuationSourceImage : Option String
  characterSelect : String
  config : ImageStudioConfig
deriving Repr, DecidableEq

structure ShotContext where
  sceneOverview : SceneOverview
  characterDesigns : List CharacterDesign
deriving Repr, DecidableEq

/-- The `Project` aggregate, with the fields App.tsx `createNewProject` actually
populates. `id` is the optional persistent store identity; JS `Date` values are
modelled as millisecond timestamps. -/
structure Project where
  id : Option Nat := none
  name : String
  script : String
  stage1Result : Option Stage1Result
  stage2Result : Option Stage2Result
  stage3Result : Option Stage3Result
  storyboardData : Option StoryboardData
  shotIdeasList : Option (List ShotIdea)
  fullScenes : Option (List FullScene)
  createdAt : Nat
  updatedAt : Nat
  scriptGeneratorIdea : String
  shotIdeaStudioConfig : ShotIdeaStudioConfig
  imageStudioState : ImageStudioState
  storyboardSceneDescription : String
  storyboardRequestFromShots : Option (List ShotIdea) := none
  shotIdeasListContext : Option ShotContext := none
  storyboardRequestContext : Option ShotContext := none
deriving Repr, DecidableEq

/-- App.tsx `createNewProject`, parameterised by the current clock value
(JS `new Date()`). -/
def createNewProject (now : Nat) : Project :=
  { name := "Untitled Project"
    script := ""
    stage1Result := none
    stage2Result := none
    stage3Result := none
    storyboardData := none
    shotIdeasList := none
    fullScenes := none
    createdAt := now
    updatedAt := now
    scriptGeneratorIdea := ""
    shotIdeaStudioConfig :=
      { genre := "", location := "", characterRace := "", skinTone := "", artisticStyle := "" }
    imageStudioState :=
      { mode := "generate"
        prompt := ""
        sourceImage := none
        characterReferenceImage := none
        locationReferenceImage := none
        resultImageBase64 := none
        analysisText := none
        isContinuation := false
        continuationSourceImage := none
        characterSelect := ""
        config :=
          { genre := "", artisticStyle := "", shotType := "", location := ""
            characterRace := "", skinTone := "", aspectRatio := "16:9" } }
    storyboardSceneDescription := ""
    storyboardRequestFromShots := none
    shotIdeasListContext := none
    storyboardRequestContext := none }

/- ===== Visual Generation Batch Runner (geminiService `generateAllVisuals`) ===== -/

/-- Outcome of one image-endpoint call: the list of returned image byte strings
(`generatedImages`, possibly empty), or a thrown error. -/
inductive ImgOutcome where
  | ok (images : List String)
  | err (e : JsError)
deriving Repr, DecidableEq

/-- Does this call outcome abort the sequential batch?  Only a thrown error
classified by `isRateLimitError` is re-thrown by the per-item catch blocks. -/
def ImgOutcome.aborts : ImgOutcome → Bool
  | .ok _ => false
  | .err e => isRateLimitError e

/-- One image request issued by `generateAllVisuals`, identified by the asset
it is for. -/
inductive VisReq where
  | conceptArt
  | portrait (name : String)
  | poster (title : String)
  | stills
deriving Repr, DecidableEq

/-- A generated character portrait entry (`{ name, image_base64 }`). -/
structure NamedImage where
  name : String
  image_base64 : String
deriving Repr, DecidableEq

/-- The result record of `generateAllVisuals`. -/
structure VisualsOut where
  concept_art_base64 : String
  character_portraits : List NamedImage
  comparable_titles_visuals : List TitledImage
  visual_style_images_base64 : List String
deriving Repr, DecidableEq

/-- Environment giving the outcome of each image request `generateAllVisuals`
could issue, indexed by position within its phase. -/
structure VisualsEnv where
  conceptArt : ImgOutcome
  portrait : Nat → ImgOutcome
  poster : Nat → ImgOutcome
  stills : ImgOutcome

/-- The portrait loop: `for (const character of mainCharacters)` — one request
per profile, push `{name, bytes}` only when the first returned image is a
non-empty string (JS truthiness of `resp.generatedImages?.[0]?.image.imageBytes`);
a caught error is swallowed unless `isRateLimitError`, which is re-thrown. -/
def runPortraits (env : Nat → ImgOutcome) (i : Nat) :
    List CharacterProfile → List VisReq × Except JsError (List NamedImage)
  | [] => ([], .ok [])
  | c :: rest =>
    match env i with
    | .err e =>
      if isRateLimitError e then ([.portrait c.name], .error e)
      else
        let r := runPortraits env (i + 1) rest
        (.portrait c.name :: r.1, r.2)
    | .ok imgs =>
      let r := runPortraits env (i + 1) rest
      (.portrait c.name :: r.1,
        match r.2 with
        | .error e => .error e
        | .ok acc =>
          .ok (match imgs.head? with
            | some s => if s ≠ "" then ⟨c.name, s⟩ :: acc else acc
            | none => acc))

/-- The comparable-title poster loop over `comparable_titles.slice(0, 3)`,
with the same push-if-non-empty and rate-limit re-throw policy. -/
def runPosters (env : Nat → ImgOutcome) (i : Nat) :
    List String → List VisReq × Except JsError (List TitledImage)
  | [] => ([], .ok [])
  | t :: rest =>
    match env i with
    | .err e =>
      if isRateLimitError e then ([.poster t], .error e)
      else
        let r := runPosters env (i + 1) rest
        (.poster t :: r.1, r.2)
    | .ok imgs =>
      let r := runPosters env (i + 1) rest
      (.poster t :: r.1,
        match r.2 with
        | .error e => .error e
        | .ok acc =>
          .ok (match imgs.head? with
            | some s => if s ≠ "" then ⟨t, s⟩ :: acc else acc
            | none => acc))

/-- The first two character profiles whose `screen_presence` is 'on-screen'
(`pitchDeckData.character_profiles.filter(...).slice(0, 2)`). -/
def mainCharacters (d : Stage2Result) : List CharacterProfile :=
  (d.character_profiles.filter (fun c => c.screen_presence = "on-screen")).take 2

/-- geminiService `generateAllVisuals`: strictly sequential requests — concept
art, then one portrait per main character, then one poster per comparable title
(first 3), then the style stills batch.  Each request is individually caught;
a rate-limit-classified error is re-thrown, aborting the rest of the batch.
Returns the list of requests actually issued and either the propagated error or
the assembled result. -/
def generateAllVisuals (d : Stage2Result) (env : VisualsEnv) :
    List VisReq × Except JsError VisualsOut :=
  let conceptStep : Except JsError String :=
    match env.conceptArt with
    | .ok imgs => .ok ((imgs.head?).getD "")
    | .err e => if isRateLimitError e then .error e else .ok ""
  match conceptStep with
  | .error e => ([.conceptArt], .error e)
  | .ok concept =>
    match runPortraits env.portrait 0 (mainCharacters d) with
    | (tr₁, .error e) => (.conceptArt :: tr₁, .error e)
    | (tr₁, .ok portraits) =>
      match runPosters env.poster 0 (d.comparable_titles.take 3) with
      | (tr₂, .error e) => (.conceptArt :: tr₁ ++ tr₂, .error e)
      | (tr₂, .ok posters) =>
        match env.stills with
        | .err e =>
          if isRateLimitError e then
            (.conceptArt :: tr₁ ++ tr₂ ++ [.stills], .error e)
          else
            (.conceptArt :: tr₁ ++ tr₂ ++ [.stills],
              .ok ⟨concept, portraits, posters, []⟩)
        | .ok imgs =>
          (.conceptArt :: tr₁ ++ tr₂ ++ [.stills],
            .ok ⟨concept, portraits, posters, imgs.filter (· ≠ "")⟩)

/-- The full request sequence of a non-aborted `generateAllVisuals` run. -/
def fullVisualTrace (d : Stage2Result) : List VisReq :=
  .conceptArt :: (mainCharacters d).map (fun c => .portrait c.name)
    ++ (d.comparable_titles.take 3).map .poster ++ [.stills]

/- ===== Shot Blueprint Generator (geminiService `generateShotIdeasAndImages`) ===== -/

/-- The parsed structured response of the shot-list call (shotListSchema). -/
structure ShotListData where
  scene_overview : SceneOverview
  character_designs : List CharacterDesign
  shots : List ShotIdea
deriving Repr, DecidableEq

/-- Environment for `generateShotIdeasAndImages`: outcome of the structured
text call, and outcome of `_generateImageForShot` for each shot index (the
string is the returned `imageBytes || ''`). -/
structure ShotsEnv where
  structured : Except JsError ShotListData
  shotImage : Nat → Except JsError String

/-- One request issued by the Shot Blueprint Generator. -/
inductive ShotReq where
  | structuredCall
  | shotImage (i : Nat)
deriving Repr, DecidableEq

/-- The first shot index whose image call rejects with a rate-limit-classified
error: `Promise.all` rejects with it, since every other rejection is caught and
converted to an empty-image entry in the map callback. -/
def firstRateLimit (env : Nat → Except JsError String) (k : Nat) : Option JsError :=
  (List.range k).findSome? (fun i =>
    match env i with
    | .error e => if isRateLimitError e then some e else none
    | .ok _ => none)

/-- Per-shot image backfill: each map callback returns `{ ...shot, image_base64 }`
with the generated bytes on success and `''` on a caught (non-rate-limit) error. -/
def attachImages (env : Nat → Except JsError String) (i : Nat) :
    List ShotIdea → List ShotIdea
  | [] => []
  | s :: rest =>
    (match env i with
      | .ok b => { s with image_base64 := some b }
      | .error _ => { s with image_base64 := some "" }) :: attachImages env (i + 1) rest

/-- geminiService `generateShotIdeasAndImages`: one structured call, then a
concurrent fan-out (`shotIdeas.map` + `Promise.all`) of one image request per
shot — all of them are issued at once, so the trace always lists every shot
index.  A rate-limit error in any callback is re-thrown and rejects the whole
`Promise.all`; other errors degrade to an empty image for that shot only. -/
def generateShotIdeasAndImages (env : ShotsEnv) :
    List ShotReq × Except JsError (List ShotIdea × ShotContext) :=
  match env.structured with
  | .error e => ([.structuredCall], .error e)
  | .ok data =>
    let trace := .structuredCall :: (List.range data.shots.length).map ShotReq.shotImage
    match firstRateLimit env.shotImage data.shots.length with
    | some e => (trace, .error e)
    | none =>
      (trace, .ok (attachImages env.shotImage 0 data.shots,
        ⟨data.scene_overview, data.character_designs⟩))

/-- geminiService `generateStoryboardFromShots` panel results: every per-shot
image call has a `.catch(e => '')`, so a failure — rate-limit included — yields
`''` for that panel and is never propagated; `Promise.all` always resolves. -/
def storyboardPanels (env : Nat → Except JsError String) (i : Nat) :
    List ShotIdea → List String
  | [] => []
  | _ :: rest =>
    (match env i with
      | .ok b => b
      | .error _ => "") :: storyboardPanels env (i + 1) rest

/-- geminiService `generateStoryboardFromShots`. -/
def generateStoryboardFromShots (shots : List ShotIdea)
    (env : Nat → Except JsError String) : List String :=
  storyboardPanels env 0 shots

/- ===== Stage Orchestrator (App.tsx) ===== -/

/-- types.ts `AnalysisStatus`. -/
inductive AnalysisStatus where
  | IDLE | ANALYZING_STAGE_1 | ANALYZING_STAGE_2 | ANALYZING_STAGE_2_VISUALS
  | ANALYZING_STAGE_3 | COMPLETE | ERROR
deriving Repr, DecidableEq

/-- One awaited service call of `executeAnalysis`. -/
inductive StageCall where
  | stage1 | stage2 | visuals | stage3 | extractScenes
deriving Repr, DecidableEq

/-- Environment giving the outcome of each external stage call as a function of
its arguments.  `extractScenes` is exported by the services module but its body
is not in src/; only its outcome (a list of `FullScene` or a thrown error) is
relevant to the orchestrator. -/
structure PipelineEnv where
  stage1 : String → Except JsError Stage1Result
  stage2 : String → String → String → Except JsError Stage2Result
  visuals : VisualsEnv
  stage3 : String → Except JsError Stage3Result
  extractScenes : String → Except JsError (List FullScene)

/-- App.tsx quota-exceeded guidance message. -/
def quotaErrorMessage : String :=
  "API quota exceeded. Please check your plan and billing details. For more information, see https://ai.google.dev/gemini-api/docs/rate-limits. To monitor your usage, visit https://ai.dev/usage?tab=rate-limit."

/-- App.tsx high-demand message. -/
def highDemandMessage : String :=
  "The AI model is currently experiencing high demand. Please wait a few moments and try again."

/-- The catch block of `executeAnalysis`: quota errors ('429' or
'RESOURCE_EXHAUSTED' in the message) get the guidance text, then
service-unavailable errors ('503', 'UNAVAILABLE' or 'overloaded') get the
high-demand text, and any other error surfaces its own message. -/
def classifyErrorMessage (e : JsError) : String :=
  if includesStr e.message "429" || includesStr e.message "RESOURCE_EXHAUSTED" then
    quotaErrorMessage
  else if includesStr e.message "503" || includesStr e.message "UNAVAILABLE"
      || includesStr e.message "overloaded" then
    highDemandMessage
  else
    e.message

/-- The visuals merge block of `executeAnalysis` (withVisuals = true): concept
art, comparable posters and style stills attach when non-empty; portraits merge
into `character_profiles` by character-name matching. -/
def mergeVisuals (r2 : Stage2Result) (vis : VisualsOut) : Stage2Result :=
  let u1 := if vis.concept_art_base64 ≠ "" then
      { r2 with concept_art_base64 := some vis.concept_art_base64 }
    else r2
  let u2 := if vis.character_portraits.length > 0 then
      { u1 with character_profiles := r2.character_profiles.map (fun profile =>
          match vis.character_portraits.find? (fun p => p.name = profile.name) with
          | some portrait => { profile with image_base64 := some portrait.image_base64 }
          | none => profile) }
    else u1
  let u3 := if vis.comparable_titles_visuals.length > 0 then
      { u2 with comparable_titles_visuals := some vis.comparable_titles_visuals }
    else u2
  if vis.visual_style_images_base64.length > 0 then
    { u3 with visual_style_images_base64 := some vis.visual_style_images_base64 }
  else u3

/-- The observable outcome of one `executeAnalysis` run: the stage calls that
were issued in order, and the final status / error message / current project. -/
structure PipelineOutcome where
  trace : List StageCall
  status : AnalysisStatus
  errorMsg : Option String
  project : Option Project
deriving Repr, DecidableEq

/-- Stage 3 and scene extraction: `stage3Result` and `fullScenes` are committed
together only after both calls return (a failure of either leaves the project
as it was after Stage 2). -/
def finishStage3 (env : PipelineEnv) (scriptText : String) (tr : List StageCall)
    (proj : Project) : PipelineOutcome :=
  match env.stage3 scriptText with
  | .error e => ⟨tr ++ [.stage3], .ERROR, some (classifyErrorMessage e), some proj⟩
  | .ok r3 =>
    match env.extractScenes scriptText with
    | .error e =>
      ⟨tr ++ [.stage3, .extractScenes], .ERROR, some (classifyErrorMessage e), some proj⟩
    | .ok scenes =>
      ⟨tr ++ [.stage3, .extractScenes], .COMPLETE, none,
        some { proj with stage3Result := some r3, fullScenes := some scenes }⟩

/-- The try/catch body of App.tsx `executeAnalysis` after its non-empty guard:
Stage 1, commit; Stage 2; optionally the visuals batch with merge; Stage 3 and
scene extraction; each thrown error ends the run in `ERROR` with the classified
message, keeping every result committed so far. -/
def executeAnalysisRun (env : PipelineEnv) (now : Nat) (scriptText : String)
    (withVisuals : Bool) : PipelineOutcome :=
  let proj0 : Project := { createNewProject now with script := scriptText }
  match env.stage1 scriptText with
  | .error e => ⟨[.stage1], .ERROR, some (classifyErrorMessage e), some proj0⟩
  | .ok r1 =>
    let proj1 := { proj0 with stage1Result := some r1 }
    match env.stage2 scriptText r1.logline r1.synopsis.extended with
    | .error e => ⟨[.stage1, .stage2], .ERROR, some (classifyErrorMessage e), some proj1⟩
    | .ok r2 =>
      if withVisuals then
        let proj2 := { proj1 with stage2Result := some r2 }
        match (generateAllVisuals r2 env.visuals).2 with
        | .error e =>
          ⟨[.stage1, .stage2, .visuals], .ERROR, some (classifyErrorMessage e), some proj2⟩
        | .ok vis =>
          let proj3 := { proj2 with stage2Result := some (mergeVisuals r2 vis) }
          finishStage3 env scriptText [.stage1, .stage2, .visuals] proj3
      else
        let proj2 := { proj1 with stage2Result := some r2 }
        finishStage3 env scriptText [.stage1, .stage2] proj2

/-- The App-level state an `executeAnalysis` call starts from. -/
structure AppState where
  status : AnalysisStatus
  error : Option String
  currentProject : Option Project
deriving Repr, DecidableEq

/-- App.tsx `executeAnalysis`: the guard `if (!scriptText.trim()) return;`
leaves status, error and project untouched and issues no call; otherwise the
pipeline run starts. -/
def executeAnalysis (env : PipelineEnv) (now : Nat) (scriptToAnalyze : String)
    (withVisuals : Bool) (st : AppState) : PipelineOutcome :=
  if jsTrim scriptToAnalyze = "" then ⟨[], st.status, st.error, st.currentProject⟩
  else executeAnalysisRun env now scriptToAnalyze withVisuals

/-- What App.tsx `handleAnalysis` does with the submitted script text. -/
inductive AnalyzeAction where
  | validationError (message : String)
  | openVisualsModal (scriptToAnalyze : String)
deriving Repr, DecidableEq

/-- App.tsx `handleAnalysis`: empty (all-whitespace) text is a local validation
error; otherwise the visuals-choice modal opens with the text stored. -/
def handleAnalysis (scriptText : String) : AnalyzeAction :=
  if jsTrim scriptText = "" then .validationError "Script content cannot be empty."
  else .openVisualsModal scriptText

/- ===== Project export / import (App.tsx) ===== -/

/-- The JSON document `JSON.stringify(currentProject)` produces, modelled by its
`JSON.parse` image: the same plain data fields, except that JS `Date` values
serialize to their string rendering. -/
structure SerializedProject where
  id : Option Nat
  name : String
  script : String
  stage1Result : Option Stage1Result
  stage2Result : Option Stage2Result
  stage3Result : Option Stage3Result
  storyboardData : Option StoryboardData
  shotIdeasList : Option (List ShotIdea)
  fullScenes : Option (List FullScene)
  createdAt : String
  updatedAt : String
  scriptGeneratorIdea : String
  shotIdeaStudioConfig : ShotIdeaStudioConfig
  imageStudioState : ImageStudioState
  storyboardSceneDescription : String
  storyboardRequestFromShots : Option (List ShotIdea)
  shotIdeasListContext : Option ShotContext
  storyboardRequestContext : Option ShotContext
deriving Repr, DecidableEq

/-- App.tsx `handleExportProject` serialization step:
`JSON.stringify(currentProject, null, 2)` on the project document. -/
def handleExportProject (p : Project) : SerializedProject :=
  { id := p.id
    name := p.name
    script := p.script
    stage1Result := p.stage1Result
    stage2Result := p.stage2Result
    stage3Result := p.stage3Result
    storyboardData := p.storyboardData
    shotIdeasList := p.shotIdeasList
    fullScenes := p.fullScenes
    createdAt := toString p.createdAt
    updatedAt := toString p.updatedAt
    scriptGeneratorIdea := p.scriptGeneratorIdea
    shotIdeaStudioConfig := p.shotIdeaStudioConfig
    imageStudioState := p.imageStudioState
    storyboardSceneDescription := p.storyboardSceneDescription
    storyboardRequestFromShots := p.storyboardRequestFromShots
    shotIdeasListContext := p.shotIdeasListContext
    storyboardRequestContext := p.storyboardRequestContext }

/-- App.tsx `handleImportProject` parse-and-prepare step on an exported
document: the basic validation (`name` and `script` must be strings) is
statically satisfied by a well-formed document; the prior identity is deleted
(`delete importedProject.id`) and both timestamps are reset to `new Date()`,
yielding a project that is new and unsaved (no `id`) before it is handed to the
project store. -/
def handleImportProject (doc : SerializedProject) (now : Nat) : Project :=
  { id := none
    name := doc.name
    script := doc.script
    stage1Result := doc.stage1Result
    stage2Result := doc.stage2Result
    stage3Result := doc.stage3Result
    storyboardData := doc.storyboardData
    shotIdeasList := doc.shotIdeasList
    fullScenes := doc.fullScenes
    createdAt := now
    updatedAt := now
    scriptGeneratorIdea := doc.scriptGeneratorIdea
    shotIdeaStudioConfig := doc.shotIdeaStudioConfig
    imageStudioState := doc.imageStudioState
    storyboardSceneDescription := doc.storyboardSceneDescription
    storyboardRequestFromShots := doc.storyboardRequestFromShots
    shotIdeasListContext := doc.shotIdeasListContext
    storyboardRequestContext := doc.storyboardRequestContext }

/- ===== Presentation guard (App.tsx `renderScriptContent`, `handleLoadProject`) ===== -/

/-- Which view `renderScriptContent` returns. -/
inductive RenderedView where
  | scriptInput (error : Option String) (script : String)
  | inProgress (status : AnalysisStatus)
  | analysisResult (project : Project)
  | fallbackNewProject
  | nothing
deriving Repr, DecidableEq

/-- App.tsx `renderScriptContent`: the complete results view renders only when
all three stage results of the current project are present; a `COMPLETE` status
without them falls back to `handleNewProject()` and renders nothing. -/
def renderScriptContent (currentProject : Option Project)
    (status : AnalysisStatus) (error : Option String) : RenderedView :=
  match currentProject with
  | none => .nothing
  | some proj =>
    match status with
    | .IDLE => .scriptInput error proj.script
    | .ERROR => .scriptInput error proj.script
    | .ANALYZING_STAGE_1 => .inProgress status
    | .ANALYZING_STAGE_2 => .inProgress status
    | .ANALYZING_STAGE_2_VISUALS => .inProgress status
    | .ANALYZING_STAGE_3 => .inProgress status
    | .COMPLETE =>
      if proj.stage1Result.isSome && proj.stage2Result.isSome
          && proj.stage3Result.isSome then
        .analysisResult proj
      else
        .fallbackNewProject

/-- App.tsx `handleLoadProject`: the status a freshly loaded persisted project
starts in (`project.stage3Result ? COMPLETE : IDLE`). -/
def loadProjectStatus (p : Project) : AnalysisStatus :=
  if p.stage3Result.isSome then .COMPLETE else .IDLE

/- ===== Helper lemmas: sequential batch loops ===== -/

/-- The portraits a non-aborted portrait loop collects, each determined only by
its own request's outcome. -/
def collectPortraits (env : Nat → ImgOutcome) (i : Nat) :
    List CharacterProfile → List NamedImage
  | [] => []
  | c :: rest =>
    match env i with
    | .ok imgs =>
      (match imgs.head? with
        | some s =>
          if s ≠ "" then ⟨c.name, s⟩ :: collectPortraits env (i + 1) rest
          else collectPortraits env (i + 1) rest
        | none => collectPortraits env (i + 1) rest)
    | .err _ => collectPortraits env (i + 1) rest

/-- The posters a non-aborted poster loop collects. -/
def collectPosters (env : Nat → ImgOutcome) (i : Nat) :
    List String → List TitledImage
  | [] => []
  | t :: rest =>
    match env i with
    | .ok imgs =>
      (match imgs.head? with
        | some s =>
          if s ≠ "" then ⟨t, s⟩ :: collectPosters env (i + 1) rest
          else collectPosters env (i + 1) rest
        | none => collectPosters env (i + 1) rest)
    | .err _ => collectPosters env (i + 1) rest

theorem runPortraits_no_abort (env : Nat → ImgOutcome) :
    ∀ (chars : List CharacterProfile) (i : Nat),
    (∀ j, j < chars.length → (env (i + j)).aborts = false) →
    runPortraits env i chars =
      (chars.map (fun c => .portrait c.name), .ok (collectPortraits env i chars)) := by
  intro chars
  induction chars with
  | nil => intro i _; simp [runPortraits, collectPortraits]
  | cons c rest ih =>
    intro i h
    have h0 : (env i).aborts = false := by simpa using h 0 (by simp)
    have hrest : ∀ j, j < rest.length → (env (i + 1 + j)).aborts = false := by
      intro j hj
      have h' := h (j + 1) (by simpa using Nat.succ_lt_succ hj)
      have he : i + (j + 1) = i + 1 + j := by omega
      rwa [he] at h'
    cases he : env i with
    | err e =>
      have hrl : isRateLimitError e = false := by
        simpa [ImgOutcome.aborts, he] using h0
      simp [runPortraits, he, hrl, collectPortraits, ih (i + 1) hrest]
    | ok imgs =>
      simp [runPortraits, he, collectPortraits, ih (i + 1) hrest]

theorem runPortraits_abort (env : Nat → ImgOutcome) :
    ∀ (chars : List CharacterProfile) (i j : Nat) (e : JsError),
    j < chars.length →
    (∀ m, m < j → (env (i + m)).aborts = false) →
    env (i + j) = .err e → isRateLimitError e = true →
    runPortraits env i chars =
      ((chars.take (j + 1)).map (fun c => .portrait c.name), .error e) := by
  intro chars
  induction chars with
  | nil => intro i j e hj _ _ _; simp at hj
  | cons c rest ih =>
    intro i j e hj hpre herr hrl
    cases j with
    | zero =>
      have h0 : env i = .err e := by simpa using herr
      simp [runPortraits, h0, hrl]
    | succ j' =>
      have h0 : (env i).aborts = false := by simpa using hpre 0 (Nat.succ_pos _)
      have hpre' : ∀ m, m < j' → (env (i + 1 + m)).aborts = false := by
        intro m hm
        have h' := hpre (m + 1) (Nat.succ_lt_succ hm)
        have hidx : i + (m + 1) = i + 1 + m := by omega
        rwa [hidx] at h'
      have herr' : env (i + 1 + j') = .err e := by
        have hidx : i + (j' + 1) = i + 1 + j' := by omega
        rwa [hidx] at herr
      have hj' : j' < rest.length := Nat.lt_of_succ_lt_succ hj
      cases he : env i with
      | err e0 =>
        have hnrl : isRateLimitError e0 = false := by
          simpa [ImgOutcome.aborts, he] using h0
        simp [runPortraits, he, hnrl, ih (i + 1) j' e hj' hpre' herr' hrl]
      | ok imgs =>
        simp [runPortraits, he, ih (i + 1) j' e hj' hpre' herr' hrl]

theorem runPosters_no_abort (env : Nat → ImgOutcome) :
    ∀ (titles : List String) (i : Nat),
    (∀ j, j < titles.length → (env (i + j)).aborts = false) →
    runPosters env i titles =
      (titles.map .poster, .ok (collectPosters env i titles)) := by
  intro titles
  induction titles with
  | nil => intro i _; simp [runPosters, collectPosters]
  | cons t rest ih =>
    intro i h
    have h0 : (env i).aborts = false := by simpa using h 0 (by simp)
    have hrest : ∀ j, j < rest.length → (env (i + 1 + j)).aborts = false := by
      intro j hj
      have h' := h (j + 1) (by simpa using Nat.succ_lt_succ hj)
      have he : i + (j + 1) = i + 1 + j := by omega
      rwa [he] at h'
    cases he : env i with
    | err e =>
      have hrl : isRateLimitError e = false := by
        simpa [ImgOutcome.aborts, he] using h0
      simp [runPosters, he, hrl, collectPosters, ih (i + 1) hrest]
    | ok imgs =>
      simp [runPosters, he, collectPosters, ih (i + 1) hrest]

theorem runPosters_abort (env : Nat → ImgOutcome) :
    ∀ (titles : List String) (i j : Nat) (e : JsError),
    j < titles.length →
    (∀ m, m < j → (env (i + m)).aborts = false) →
    env (i + j) = .err e → isRateLimitError e = true →
    runPosters env i titles =
      ((titles.take (j + 1)).map .poster, .error e) := by
  intro titles
  induction titles with
  | nil => intro i j e hj _ _ _; simp at hj
  | cons t rest ih =>
    intro i j e hj hpre herr hrl
    cases j with
    | zero =>
      have h0 : env i = .err e := by simpa using herr
      simp [runPosters, h0, hrl]
    | succ j' =>
      have h0 : (env i).aborts = false := by simpa using hpre 0 (Nat.succ_pos _)
      have hpre' : ∀ m, m < j' → (env (i + 1 + m)).aborts = false := by
        intro m hm
        have h' := hpre (m + 1) (Nat.succ_lt_succ hm)
        have hidx : i + (m + 1) = i + 1 + m := by omega
        rwa [hidx] at h'
      have herr' : env (i + 1 + j') = .err e := by
        have hidx : i + (j' + 1) = i + 1 + j' := by omega
        rwa [hidx] at herr
      have hj' : j' < rest.length := Nat.lt_of_succ_lt_succ hj
      cases he : env i with
      | err e0 =>
        have hnrl : isRateLimitError e0 = false := by
          simpa [ImgOutcome.aborts, he] using h0
        simp [runPosters, he, hnrl, ih (i + 1) j' e hj' hpre' herr' hrl]
      | ok imgs =>
        simp [runPosters, he, ih (i + 1) j' e hj' hpre' herr' hrl]

/-- No request of the batch is classified as a rate-limit failure (aborting). -/
def VisualsEnv.noAbort (env : VisualsEnv) (d : Stage2Result) : Prop :=
  env.conceptArt.aborts = false ∧
  (∀ j, j < (mainCharacters d).length → (env.portrait j).aborts = false) ∧
  (∀ j, j < (d.comparable_titles.take 3).length → (env.poster j).aborts = false) ∧
  env.stills.aborts = false

/-- The result a non-aborted batch assembles: each of the four asset
collections depends only on its own requests' outcomes, with failed requests
simply leaving their asset absent. -/
def pointwiseVisuals (d : Stage2Result) (env : VisualsEnv) : VisualsOut :=
  { concept_art_base64 :=
      match env.conceptArt with
      | .ok imgs => (imgs.head?).getD ""
      | .err _ => ""
    character_portraits := collectPortraits env.portrait 0 (mainCharacters d)
    comparable_titles_visuals := collectPosters env.poster 0 (d.comparable_titles.take 3)
    visual_style_images_base64 :=
      match env.stills with
      | .ok imgs => imgs.filter (· ≠ "")
      | .err _ => [] }

theorem generateAllVisuals_no_abort (d : Stage2Result) (env : VisualsEnv)
    (h : env.noAbort d) :
    generateAllVisuals d env = (fullVisualTrace d, .ok (pointwiseVisuals d env)) := by
  obtain ⟨hca, hpo, hps, hst⟩ := h
  have hport := runPortraits_no_abort env.portrait (mainCharacters d) 0 (by simpa using hpo)
  have hpost := runPosters_no_abort env.poster (d.comparable_titles.take 3) 0 (by simpa using hps)
  cases hc : env.conceptArt with
  | err e =>
    have hrl : isRateLimitError e = false := by
      simpa [ImgOutcome.aborts, hc] using hca
    cases hs : env.stills with
    | err e' =>
      have hrl' : isRateLimitError e' = false := by
        simpa [ImgOutcome.aborts, hs] using hst
      simp [generateAllVisuals, hc, hrl, hport, hpost, hs, hrl',
        fullVisualTrace, pointwiseVisuals]
    | ok imgs =>
      simp [generateAllVisuals, hc, hrl, hport, hpost, hs,
        fullVisualTrace, pointwiseVisuals]
  | ok cimgs =>
    cases hs : env.stills with
    | err e' =>
      have hrl' : isRateLimitError e' = false := by
        simpa [ImgOutcome.aborts, hs] using hst
      simp [generateAllVisuals, hc, hport, hpost, hs, hrl',
        fullVisualTrace, pointwiseVisuals]
    | ok imgs =>
      simp [generateAllVisuals, hc, hport, hpost, hs,
        fullVisualTrace, pointwiseVisuals]

theorem generateAllVisuals_concept_abort (d : Stage2Result) (env : VisualsEnv)
    (e : JsError) (hc : env.conceptArt = .err e) (hrl : isRateLimitError e = true) :
    generateAllVisuals d env = ([.conceptArt], .error e) := by
  simp [generateAllVisuals, hc, hrl]

theorem generateAllVisuals_portrait_abort (d : Stage2Result) (env : VisualsEnv)
    (j : Nat) (e : JsError)
    (hj : j < (mainCharacters d).length)
    (hca : env.conceptArt.aborts = false)
    (hpre : ∀ m, m < j → (env.portrait m).aborts = false)
    (herr : env.portrait j = .err e) (hrl : isRateLimitError e = true) :
    generateAllVisuals d env =
      (.conceptArt :: ((mainCharacters d).take (j + 1)).map (fun c => .portrait c.name),
        .error e) := by
  have hport := runPortraits_abort env.portrait (mainCharacters d) 0 j e hj
    (by simpa using hpre) (by simpa using herr) hrl
  cases hc : env.conceptArt with
  | err e0 =>
    have hnrl : isRateLimitError e0 = false := by
      simpa [ImgOutcome.aborts, hc] using hca
    simp [generateAllVisuals, hc, hnrl, hport]
  | ok cimgs =>
    simp [generateAllVisuals, hc, hport]

theorem generateAllVisuals_poster_abort (d : Stage2Result) (env : VisualsEnv)
    (j : Nat) (e : JsError)
    (hj : j < (d.comparable_titles.take 3).length)
    (hca : env.conceptArt.aborts = false)
    (hpo : ∀ m, m < (mainCharacters d).length → (env.portrait m).aborts = false)
    (hpre : ∀ m, m < j → (env.poster m).aborts = false)
    (herr : env.poster j = .err e) (hrl : isRateLimitError e = true) :
    generateAllVisuals d env =
      (.conceptArt :: (mainCharacters d).map (fun c => .portrait c.name)
        ++ ((d.comparable_titles.take 3).take (j + 1)).map .poster, .error e) := by
  have hport := runPortraits_no_abort env.portrait (mainCharacters d) 0 (by simpa using hpo)
  have hpost := runPosters_abort env.poster (d.comparable_titles.take 3) 0 j e hj
    (by simpa using hpre) (by simpa using herr) hrl
  cases hc : env.conceptArt with
  | err e0 =>
    have hnrl : isRateLimitError e0 = false := by
      simpa [ImgOutcome.aborts, hc] using hca
    simp [generateAllVisuals, hc, hnrl, hport, hpost]
  | ok cimgs =>
    simp [generateAllVisuals, hc, hport, hpost]

theorem generateAllVisuals_stills_abort (d : Stage2Result) (env : VisualsEnv)
    (e : JsError)
    (hca : env.conceptArt.aborts = false)
    (hpo : ∀ m, m < (mainCharacters d).length → (env.portrait m).aborts = false)
    (hps : ∀ m, m < (d.comparable_titles.take 3).length → (env.poster m).aborts = false)
    (herr : env.stills = .err e) (hrl : isRateLimitError e = true) :
    generateAllVisuals d env = (fullVisualTrace d, .error e) := by
  have hport := runPortraits_no_abort env.portrait (mainCharacters d) 0 (by simpa using hpo)
  have hpost := runPosters_no_abort env.poster (d.comparable_titles.take 3) 0 (by simpa using hps)
  cases hc : env.conceptArt with
  | err e0 =>
    have hnrl : isRateLimitError e0 = false := by
      simpa [ImgOutcome.aborts, hc] using hca
    simp [generateAllVisuals, hc, hnrl, hport, hpost, herr, hrl, fullVisualTrace]
  | ok cimgs =>
    simp [generateAllVisuals, hc, hport, hpost, herr, hrl, fullVisualTrace]

/- ===== Concrete sample data for witnesses ===== -/

def sampleProfile (nm sp : String) : CharacterProfile :=
  { name := nm, description := "desc", screen_presence := sp, arc := "arc", motivation := "mot" }

def sampleStage2 : Stage2Result :=
  { title := "T", author := "A", genre := "G", tone := "tone", logline := "log"
    world_and_setting := "world"
    character_profiles :=
      [sampleProfile "Ana" "on-screen", sampleProfile "Ben" "on-screen",
        sampleProfile "Voice" "off-screen"]
    treatment := "treat"
    themes_and_motifs := []
    comparable_titles := ["X", "Y", "Z", "W"]
    target_audience := "all"
    visual_style_suggestion := "style"
    final_rating := { score := 7, justification := "j" }
    completion_checklist := [] }

/-- A provider failure carrying the rate-limit status code. -/
def rlErr : JsError := ⟨"got status: 429 RESOURCE_EXHAUSTED"⟩

/-- A generic provider failure. -/
def genErr : JsError := ⟨"something broke"⟩

/-- Visuals environment where the second portrait request hits a rate limit. -/
def visEnvRL : VisualsEnv :=
  { conceptArt := .ok ["c"]
    portrait := fun j => if j = 1 then .err rlErr else .ok ["p"]
    poster := fun _ => .ok ["q"]
    stills := .ok ["s1", "s2", "s3"] }

/-- Visuals environment where the second portrait request fails generically. -/
def visEnvGen : VisualsEnv :=
  { conceptArt := .ok ["c"]
    portrait := fun j => if j = 1 then .err genErr else .ok ["p"]
    poster := fun _ => .ok ["q"]
    stills := .ok ["s1", "s2", "s3"] }

/- ===== Claim theorems ===== -/

/-- C2: in `generateAllVisuals`, a rate-limit-classified failure of any single
image request aborts all remaining requests of the batch and propagates the
error to the caller, whereas once no request fails with a rate-limit error the
whole batch executes (full request trace) and returns a partial result in which
each asset depends only on its own request's outcome, failed requests leaving
their asset absent. -/
theorem generateAllVisuals_failure_policy (d : Stage2Result) (env : VisualsEnv) :
    (∀ e, env.conceptArt = .err e → isRateLimitError e = true →
      generateAllVisuals d env = ([.conceptArt], .error e)) ∧
    (∀ j e, j < (mainCharacters d).length →
      env.conceptArt.aborts = false →
      (∀ m, m < j → (env.portrait m).aborts = false) →
      env.portrait j = .err e → isRateLimitError e = true →
      generateAllVisuals d env =
        (.conceptArt :: ((mainCharacters d).take (j + 1)).map (fun c => .portrait c.name),
          .error e)) ∧
    (∀ j e, j < (d.comparable_titles.take 3).length →
      env.conceptArt.aborts = false →
      (∀ m, m < (mainCharacters d).length → (env.portrait m).aborts = false) →
      (∀ m, m < j → (env.poster m).aborts = false) →
      env.poster j = .err e → isRateLimitError e = true →
      generateAllVisuals d env =
        (.conceptArt :: (mainCharacters d).map (fun c => .portrait c.name)
          ++ ((d.comparable_titles.take 3).take (j + 1)).map .poster, .error e)) ∧
    (∀ e, env.conceptArt.aborts = false →
      (∀ m, m < (mainCharacters d).length → (env.portrait m).aborts = false) →
      (∀ m, m < (d.comparable_titles.take 3).length → (env.poster m).aborts = false) →
      env.stills = .err e → isRateLimitError e = true →
      generateAllVisuals d env = (fullVisualTrace d, .error e)) ∧
    (env.noAbort d →
      generateAllVisuals d env = (fullVisualTrace d, .ok (pointwiseVisuals d env))) := by
  refine ⟨?_, ?_, ?_, ?_, ?_⟩
  · intro e hc hrl
    exact generateAllVisuals_concept_abort d env e hc hrl
  · intro j e hj hca hpre herr hrl
    exact generateAllVisuals_portrait_abort d env j e hj hca hpre herr hrl
  · intro j e hj hca hpo hpre herr hrl
    exact generateAllVisuals_poster_abort d env j e hj hca hpo hpre herr hrl
  · intro e hca hpo hps herr hrl
    exact generateAllVisuals_stills_abort d env e hca hpo hps herr hrl
  · intro h
    exact generateAllVisuals_no_abort d env h

/-- Witness for C2: with two on-screen profiles, a rate-limit failure on the
second portrait request (third sequential call) aborts the posters and stills
and propagates; the same failure unclassified lets all remaining requests run
and only that portrait is absent. -/
theorem generateAllVisuals_failure_policy_witness :
    generateAllVisuals sampleStage2 visEnvRL =
      ([.conceptArt, .portrait "Ana", .portrait "Ben"], .error rlErr) ∧
    generateAllVisuals sampleStage2 visEnvGen =
      (fullVisualTrace sampleStage2, .ok (pointwiseVisuals sampleStage2 visEnvGen)) := by
  constructor
  · have h := (generateAllVisuals_failure_policy sampleStage2 visEnvRL).2.1 1 rlErr
      (by decide) (by decide)
      (by intro m hm; interval_cases m; decide)
      (by decide) (by decide)
    simpa [mainCharacters, sampleStage2, sampleProfile] using h
  · refine (generateAllVisuals_failure_policy sampleStage2 visEnvGen).2.2.2.2
      ⟨by decide, ?_, ?_, by decide⟩
    · intro j hj
      have hlen : (mainCharacters sampleStage2).length = 2 := by decide
      rw [hlen] at hj
      interval_cases j <;> decide
    · intro j _
      rfl

theorem countP_isPortrait_portraitMap (l : List CharacterProfile) :
    (l.map (fun c => VisReq.portrait c.name)).countP
      (fun r => match r with | .portrait _ => true | _ => false) = l.length := by
  induction l with
  | nil => simp
  | cons c rest ih => simp [List.countP_cons, ih]

theorem countP_isPortrait_posterMap (l : List String) :
    (l.map VisReq.poster).countP
      (fun r => match r with | .portrait _ => true | _ => false) = 0 := by
  induction l with
  | nil => simp
  | cons t rest ih => simp [List.countP_cons, ih]

theorem countP_isPoster_portraitMap (l : List CharacterProfile) :
    (l.map (fun c => VisReq.portrait c.name)).countP
      (fun r => match r with | .poster _ => true | _ => false) = 0 := by
  induction l with
  | nil => simp
  | cons c rest ih => simp [List.countP_cons, ih]

theorem countP_isPoster_posterMap (l : List String) :
    (l.map VisReq.poster).countP
      (fun r => match r with | .poster _ => true | _ => false) = l.length := by
  induction l with
  | nil => simp
  | cons t rest ih => simp [List.countP_cons, ih]

/-- C4: in a non-aborted batch, `generateAllVisuals` attempts exactly
`min 2 |on-screen profiles|` portrait requests, for the first on-screen
profiles in profile order, at most the first 3 comparable titles get a poster
request, and the requests are issued strictly sequentially: concept art, then
the portraits in order, then the posters in order, then the style stills. -/
theorem generateAllVisuals_request_order (d : Stage2Result) (env : VisualsEnv)
    (h : env.noAbort d) :
    (generateAllVisuals d env).1 =
      .conceptArt ::
        ((d.character_profiles.filter
            (fun c => c.screen_presence = "on-screen")).take 2).map
          (fun c => .portrait c.name)
        ++ (d.comparable_titles.take 3).map .poster ++ [.stills] ∧
    ((generateAllVisuals d env).1.countP
        (fun r => match r with | .portrait _ => true | _ => false)) =
      min 2 (d.character_profiles.filter
        (fun c => c.screen_presence = "on-screen")).length ∧
    ((generateAllVisuals d env).1.countP
        (fun r => match r with | .poster _ => true | _ => false)) =
      min 3 d.comparable_titles.length := by
  have hrun := generateAllVisuals_no_abort d env h
  refine ⟨?_, ?_, ?_⟩
  · rw [hrun]
    simp [fullVisualTrace, mainCharacters]
  · rw [hrun]
    simp only [fullVisualTrace, mainCharacters, List.countP_cons, List.countP_append,
      countP_isPortrait_portraitMap, countP_isPortrait_posterMap]
    simp [List.length_take]
  · rw [hrun]
    simp only [fullVisualTrace, mainCharacters, List.countP_cons, List.countP_append,
      countP_isPoster_portraitMap, countP_isPoster_posterMap]
    simp [List.length_take]

/-- Witness for C4: three profiles of which two are on-screen, four comparable
titles — two portrait requests (for the on-screen profiles, in order) and three
poster requests, all in sequential order. -/
theorem generateAllVisuals_request_order_witness :
    (generateAllVisuals sampleStage2 visEnvGen).1 =
      [.conceptArt, .portrait "Ana", .portrait "Ben",
        .poster "X", .poster "Y", .poster "Z", .stills] ∧
    ((generateAllVisuals sampleStage2 visEnvGen).1.countP
        (fun r => match r with | .portrait _ => true | _ => false)) = 2 := by
  have hna : visEnvGen.noAbort sampleStage2 := by
    refine ⟨by decide, ?_, ?_, by decide⟩
    · intro j hj
      have hlen : (mainCharacters sampleStage2).length = 2 := by decide
      rw [hlen] at hj
      interval_cases j <;> decide
    · intro j _
      rfl
  have h := generateAllVisuals_request_order sampleStage2 visEnvGen hna
  refine ⟨?_, ?_⟩
  · rw [h.1]
    decide
  · rw [h.2.1]
    decide

/- ===== Helper lemmas: shot fan-out ===== -/

theorem attachImages_length (env : Nat → Except JsError String) :
    ∀ (shots : List ShotIdea) (i : Nat),
    (attachImages env i shots).length = shots.length := by
  intro shots
  induction shots with
  | nil => intro i; simp [attachImages]
  | cons s rest ih => intro i; simp [attachImages, ih]

theorem attachImages_getElem? (env : Nat → Except JsError String) :
    ∀ (shots : List ShotIdea) (i k : Nat),
    (attachImages env i shots)[k]? = (shots[k]?).map (fun s =>
      match env (i + k) with
      | .ok b => { s with image_base64 := some b }
      | .error _ => { s with image_base64 := some "" }) := by
  intro shots
  induction shots with
  | nil => intro i k; simp [attachImages]
  | cons s rest ih =>
    intro i k
    cases k with
    | zero => simp [attachImages]
    | succ k' =>
      have hidx : i + (k' + 1) = (i + 1) + k' := by omega
      simp [attachImages, ih (i + 1) k', hidx]

theorem storyboardPanels_length (env : Nat → Except JsError String) :
    ∀ (shots : List ShotIdea) (i : Nat),
    (storyboardPanels env i shots).length = shots.length := by
  intro shots
  induction shots with
  | nil => intro i; simp [storyboardPanels]
  | cons s rest ih => intro i; simp [storyboardPanels, ih]

theorem storyboardPanels_getElem? (env : Nat → Except JsError String) :
    ∀ (shots : List ShotIdea) (i k : Nat),
    (storyboardPanels env i shots)[k]? = (shots[k]?).map (fun _ =>
      match env (i + k) with
      | .ok b => b
      | .error _ => "") := by
  intro shots
  induction shots with
  | nil => intro i k; simp [storyboardPanels]
  | cons s rest ih =>
    intro i k
    cases k with
    | zero => simp [storyboardPanels]
    | succ k' =>
      have hidx : i + (k' + 1) = (i + 1) + k' := by omega
      simp [storyboardPanels, ih (i + 1) k', hidx]

theorem firstRateLimit_eq_none_iff (env : Nat → Except JsError String) (k : Nat) :
    firstRateLimit env k = none ↔
      ∀ i, i < k → ∀ e, env i = .error e → isRateLimitError e = false := by
  unfold firstRateLimit
  rw [List.findSome?_eq_none_iff]
  constructor
  · intro h i hi e he
    have hx := h i (List.mem_range.mpr hi)
    rw [he] at hx
    by_contra hrl
    rw [Bool.not_eq_false] at hrl
    simp [hrl] at hx
  · intro h i hi
    cases he : env i with
    | ok _ => simp
    | error e =>
      have := h i (List.mem_range.mp hi) e he
      simp [this]

theorem firstRateLimit_some_rl (env : Nat → Except JsError String) (k : Nat)
    (e : JsError) (h : firstRateLimit env k = some e) :
    isRateLimitError e = true ∧ ∃ i, i < k ∧ env i = .error e := by
  obtain ⟨i, hi, hfi⟩ := List.exists_of_findSome?_eq_some h
  rw [List.mem_range] at hi
  cases he : env i with
  | ok _ => rw [he] at hfi; simp at hfi
  | error e0 =>
    rw [he] at hfi
    by_cases hrl : isRateLimitError e0 = true
    · simp [hrl] at hfi
      subst hfi
      exact ⟨hrl, i, hi, he⟩
    · rw [Bool.not_eq_true] at hrl
      simp [hrl] at hfi

/-- A concrete shot for witnesses. -/
def sampleShot (n : Nat) : ShotIdea :=
  { shot_number := n, shot_type := "Wide", artistic_style := "Realism"
    description := "action", composition_and_framing := "thirds"
    lighting := "soft", blocking := "static", costume_and_makeup := "plain"
    art_design := "minimal" }

def sampleShotList : ShotListData :=
  { scene_overview := { setting_description := "a room", lighting_mood := "warm" }
    character_designs := [{ name := "Ana", description := "tall", costume := "coat" }]
    shots := [sampleShot 1, sampleShot 2, sampleShot 3, sampleShot 4] }

/-- Shots environment: structured call succeeds with 4 shots, the image call of
shot index 2 (shot #3) fails with a generic error, the rest succeed. -/
def shotsEnvGen : ShotsEnv :=
  { structured := .ok sampleShotList
    shotImage := fun i => if i = 2 then .error genErr else .ok "img" }

/-- C3: with a structured call yielding K shots, exactly K per-shot image
requests are issued (all fanned out, one per shot index); when no request fails
with a rate-limit error the function returns exactly K entries where a failed
shot carries an empty image and a successful one its bytes; a rate-limit
failure makes the call propagate an error instead of producing a list. -/
theorem generateShotIdeasAndImages_policy (env : ShotsEnv) (data : ShotListData)
    (hstruct : env.structured = .ok data) :
    (generateShotIdeasAndImages env).1 =
      .structuredCall :: (List.range data.shots.length).map ShotReq.shotImage ∧
    ((∀ i, i < data.shots.length → ∀ e, env.shotImage i = .error e →
        isRateLimitError e = false) →
      generateShotIdeasAndImages env =
        (.structuredCall :: (List.range data.shots.length).map ShotReq.shotImage,
          .ok (attachImages env.shotImage 0 data.shots,
            ⟨data.scene_overview, data.character_designs⟩)) ∧
      (attachImages env.shotImage 0 data.shots).length = data.shots.length ∧
      (∀ k, (attachImages env.shotImage 0 data.shots)[k]? =
        (data.shots[k]?).map (fun s =>
          match env.shotImage k with
          | .ok b => { s with image_base64 := some b }
          | .error _ => { s with image_base64 := some "" }))) ∧
    ((∃ i e, i < data.shots.length ∧ env.shotImage i = .error e ∧
        isRateLimitError e = true) →
      ∃ e, (generateShotIdeasAndImages env).2 = .error e ∧
        isRateLimitError e = true) := by
  refine ⟨?_, ?_, ?_⟩
  · cases hfr : firstRateLimit env.shotImage data.shots.length with
    | none => simp [generateShotIdeasAndImages, hstruct, hfr]
    | some e => simp [generateShotIdeasAndImages, hstruct, hfr]
  · intro hnorl
    have hfr : firstRateLimit env.shotImage data.shots.length = none :=
      (firstRateLimit_eq_none_iff env.shotImage data.shots.length).mpr hnorl
    refine ⟨by simp [generateShotIdeasAndImages, hstruct, hfr],
      attachImages_length env.shotImage data.shots 0, ?_⟩
    intro k
    have := attachImages_getElem? env.shotImage data.shots 0 k
    simpa using this
  · rintro ⟨i, e, hi, he, hrl⟩
    cases hfr : firstRateLimit env.shotImage data.shots.length with
    | none =>
      have := (firstRateLimit_eq_none_iff env.shotImage data.shots.length).mp hfr i hi e he
      rw [this] at hrl
      cases hrl
    | some e0 =>
      have h0 := firstRateLimit_some_rl env.shotImage data.shots.length e0 hfr
      exact ⟨e0, by simp [generateShotIdeasAndImages, hstruct, hfr], h0.1⟩

/-- Witness for C3: 4 shots, a generic failure on shot #3's image request —
still 4 entries, shot #3 with an empty image, the others populated. -/
theorem generateShotIdeasAndImages_policy_witness :
    generateShotIdeasAndImages shotsEnvGen =
      ([.structuredCall, .shotImage 0, .shotImage 1, .shotImage 2, .shotImage 3],
        .ok ([{ sampleShot 1 with image_base64 := some "img" },
              { sampleShot 2 with image_base64 := some "img" },
              { sampleShot 3 with image_base64 := some "" },
              { sampleShot 4 with image_base64 := some "img" }],
          ⟨sampleShotList.scene_overview, sampleShotList.character_designs⟩)) := by
  have h := ((generateShotIdeasAndImages_policy shotsEnvGen sampleShotList rfl).2.1
    (by intro i hi e he
        have hlen : sampleShotList.shots.length = 4 := by decide
        rw [hlen] at hi
        interval_cases i
        · simp [shotsEnvGen] at he
        · simp [shotsEnvGen] at he
        · simp [shotsEnvGen] at he
          subst he
          decide
        · simp [shotsEnvGen] at he)).1
  rw [h]
  rfl

/-- C10: `generateStoryboardFromShots` always returns one panel per input shot
— the output length equals the input length — and never propagates a per-shot
image failure: every failure, rate-limit-classified ones included, yields an
empty string for that panel only, the other panels being unaffected. -/
theorem generateStoryboardFromShots_total (shots : List ShotIdea)
    (env : Nat → Except JsError String) :
    (generateStoryboardFromShots shots env).length = shots.length ∧
    (∀ k, (generateStoryboardFromShots shots env)[k]? =
      (shots[k]?).map (fun _ =>
        match env k with
        | .ok b => b
        | .error _ => "")) ∧
    (∀ k e, k < shots.length → env k = .error e →
      (generateStoryboardFromShots shots env)[k]? = some "") := by
  refine ⟨storyboardPanels_length env shots 0, ?_, ?_⟩
  · intro k
    have := storyboardPanels_getElem? env shots 0 k
    simpa using this
  · intro k e hk he
    have hg := storyboardPanels_getElem? env shots 0 k
    rw [List.getElem?_eq_getElem hk] at hg
    simpa [generateStoryboardFromShots, he] using hg

/-- Witness for C10: four shots with a rate-limit failure on panel index 1 —
four panels come back, panel 1 is the empty string, nothing is propagated. -/
theorem generateStoryboardFromShots_total_witness :
    generateStoryboardFromShots sampleShotList.shots
      (fun i => if i = 1 then .error rlErr else .ok "img") = ["img", "", "img", "img"] ∧
    (generateStoryboardFromShots sampleShotList.shots
      (fun i => if i = 1 then .error rlErr else .ok "img"))[1]? = some "" := by
  constructor
  · rfl
  · exact (generateStoryboardFromShots_total sampleShotList.shots
      (fun i => if i = 1 then .error rlErr else .ok "img")).2.2 1 rlErr
      (by decide) rfl

/-- An idle app state for witnesses. -/
def idleState : AppState := ⟨.IDLE, none, none⟩

/-- Pipeline environment whose Stage 1 response fails to parse. -/
def failingStage1Env : PipelineEnv :=
  { stage1 := fun _ => .error ⟨"Unexpected token in JSON"⟩
    stage2 := fun _ _ _ => .error ⟨"unused"⟩
    visuals := visEnvGen
    stage3 := fun _ => .error ⟨"unused"⟩
    extractScenes := fun _ => .error ⟨"unused"⟩ }

/-- C1: for a non-empty script, the issued stage calls are always an in-order
prefix of Stage 1 → Stage 2 (→ visuals) → Stage 3 (→ scene extraction); Stage 2
is only called after Stage 1's response parsed, Stage 3 only after Stage 2's
(and, when requested, the visuals batch) succeeded; and a Stage 1 parse failure
ends the run in `ERROR` with `stage1Result` still null and no Stage 2 call. -/
theorem pipeline_stage_order (env : PipelineEnv) (now : Nat)
    (script : String) (w : Bool) (st : AppState) (h : ¬ jsTrim script = "") :
    (executeAnalysis env now script w st).trace <+:
      (if w then [StageCall.stage1, .stage2, .visuals, .stage3, .extractScenes]
        else [StageCall.stage1, .stage2, .stage3, .extractScenes]) ∧
    (StageCall.stage2 ∈ (executeAnalysis env now script w st).trace →
      ∃ r1, env.stage1 script = .ok r1) ∧
    (StageCall.stage3 ∈ (executeAnalysis env now script w st).trace →
      ∃ r1 r2, env.stage1 script = .ok r1 ∧
        env.stage2 script r1.logline r1.synopsis.extended = .ok r2 ∧
        (w = true → ∃ v, (generateAllVisuals r2 env.visuals).2 = .ok v)) ∧
    (∀ e, env.stage1 script = .error e →
      (executeAnalysis env now script w st).status = .ERROR ∧
      (∃ p, (executeAnalysis env now script w st).project = some p ∧
        p.stage1Result = none) ∧
      StageCall.stage2 ∉ (executeAnalysis env now script w st).trace) := by
  unfold executeAnalysis
  rw [if_neg h]
  cases h1 : env.stage1 script with
  | error e1 =>
    have hout : executeAnalysisRun env now script w =
        ⟨[.stage1], .ERROR, some (classifyErrorMessage e1),
          some { createNewProject now with script := script }⟩ := by
      simp [executeAnalysisRun, h1]
    rw [hout]
    refine ⟨?_, ?_, ?_, ?_⟩
    · cases w
      · exact ⟨[.stage2, .stage3, .extractScenes], rfl⟩
      · exact ⟨[.stage2, .visuals, .stage3, .extractScenes], rfl⟩
    · intro hmem; simp at hmem
    · intro hmem; simp at hmem
    · intro e _
      exact ⟨rfl, ⟨_, rfl, rfl⟩, by simp⟩
  | ok r1 =>
    cases h2 : env.stage2 script r1.logline r1.synopsis.extended with
    | error e2 =>
      have hout : executeAnalysisRun env now script w =
          ⟨[.stage1, .stage2], .ERROR, some (classifyErrorMessage e2),
            some { createNewProject now with script := script, stage1Result := some r1 }⟩ := by
        simp [executeAnalysisRun, h1, h2]
      rw [hout]
      refine ⟨?_, ?_, ?_, ?_⟩
      · cases w
        · exact ⟨[.stage3, .extractScenes], rfl⟩
        · exact ⟨[.visuals, .stage3, .extractScenes], rfl⟩
      · intro _; exact ⟨r1, rfl⟩
      · intro hmem; simp at hmem
      · intro e he; exact Except.noConfusion he
    | ok r2 =>
      cases w with
      | false =>
        cases h3 : env.stage3 script with
        | error e3 =>
          have hout : executeAnalysisRun env now script false =
              ⟨[.stage1, .stage2, .stage3], .ERROR, some (classifyErrorMessage e3),
                some { createNewProject now with script := script, stage1Result := some r1, stage2Result := some r2 }⟩ := by
            simp [executeAnalysisRun, finishStage3, h1, h2, h3]
          rw [hout]
          refine ⟨⟨[.extractScenes], rfl⟩, fun _ => ⟨r1, rfl⟩, ?_, ?_⟩
          · intro _
            exact ⟨r1, r2, rfl, h2, fun hw => Bool.noConfusion hw⟩
          · intro e he; exact Except.noConfusion he
        | ok r3 =>
          cases h4 : env.extractScenes script with
          | error e4 =>
            have hout : executeAnalysisRun env now script false =
                ⟨[.stage1, .stage2, .stage3, .extractScenes], .ERROR,
                  some (classifyErrorMessage e4),
                  some { createNewProject now with script := script, stage1Result := some r1, stage2Result := some r2 }⟩ := by
              simp [executeAnalysisRun, finishStage3, h1, h2, h3, h4]
            rw [hout]
            refine ⟨⟨[], rfl⟩, fun _ => ⟨r1, rfl⟩, ?_, ?_⟩
            · intro _
              exact ⟨r1, r2, rfl, h2, fun hw => Bool.noConfusion hw⟩
            · intro e he; exact Except.noConfusion he
          | ok scenes =>
            have hout : executeAnalysisRun env now script false =
                ⟨[.stage1, .stage2, .stage3, .extractScenes], .COMPLETE, none,
                  some { createNewProject now with script := script, stage1Result := some r1, stage2Result := some r2, stage3Result := some r3, fullScenes := some scenes }⟩ := by
              simp [executeAnalysisRun, finishStage3, h1, h2, h3, h4]
            rw [hout]
            refine ⟨⟨[], rfl⟩, fun _ => ⟨r1, rfl⟩, ?_, ?_⟩
            · intro _
              exact ⟨r1, r2, rfl, h2, fun hw => Bool.noConfusion hw⟩
            · intro e he; exact Except.noConfusion he
      | true =>
        cases hv : (generateAllVisuals r2 env.visuals).2 with
        | error ev =>
          have hout : executeAnalysisRun env now script true =
              ⟨[.stage1, .stage2, .visuals], .ERROR, some (classifyErrorMessage ev),
                some { createNewProject now with script := script, stage1Result := some r1, stage2Result := some r2 }⟩ := by
            simp [executeAnalysisRun, h1, h2, hv]
          rw [hout]
          refine ⟨⟨[.stage3, .extractScenes], rfl⟩, fun _ => ⟨r1, rfl⟩, ?_, ?_⟩
          · intro hmem; simp at hmem
          · intro e he; exact Except.noConfusion he
        | ok v =>
          cases h3 : env.stage3 script with
          | error e3 =>
            have hout : executeAnalysisRun env now script true =
                ⟨[.stage1, .stage2, .visuals, .stage3], .ERROR,
                  some (classifyErrorMessage e3),
                  some { createNewProject now with script := script, stage1Result := some r1, stage2Result := some (mergeVisuals r2 v) }⟩ := by
              simp [executeAnalysisRun, finishStage3, h1, h2, hv, h3]
            rw [hout]
            refine ⟨⟨[.extractScenes], rfl⟩, fun _ => ⟨r1, rfl⟩, ?_, ?_⟩
            · intro _
              exact ⟨r1, r2, rfl, h2, fun _ => ⟨v, hv⟩⟩
            · intro e he; exact Except.noConfusion he
          | ok r3 =>
            cases h4 : env.extractScenes script with
            | error e4 =>
              have hout : executeAnalysisRun env now script true =
                  ⟨[.stage1, .stage2, .visuals, .stage3, .extractScenes], .ERROR,
                    some (classifyErrorMessage e4),
                    some { createNewProject now with script := script, stage1Result := some r1, stage2Result := some (mergeVisuals r2 v) }⟩ := by
                simp [executeAnalysisRun, finishStage3, h1, h2, hv, h3, h4]
              rw [hout]
              refine ⟨⟨[], rfl⟩, fun _ => ⟨r1, rfl⟩, ?_, ?_⟩
              · intro _
                exact ⟨r1, r2, rfl, h2, fun _ => ⟨v, hv⟩⟩
              · intro e he; exact Except.noConfusion he
            | ok scenes =>
              have hout : executeAnalysisRun env now script true =
                  ⟨[.stage1, .stage2, .visuals, .stage3, .extractScenes], .COMPLETE,
                    none,
                    some { createNewProject now with script := script, stage1Result := some r1, stage2Result := some (mergeVisuals r2 v), stage3Result := some r3, fullScenes := some scenes }⟩ := by
                simp [executeAnalysisRun, finishStage3, h1, h2, hv, h3, h4]
              rw [hout]
              refine ⟨⟨[], rfl⟩, fun _ => ⟨r1, rfl⟩, ?_, ?_⟩
              · intro _
                exact ⟨r1, r2, rfl, h2, fun _ => ⟨v, hv⟩⟩
              · intro e he; exact Except.noConfusion he

/-- Witness for C1: a Stage 1 parse failure on a non-empty script ends in the
Error state with a null `stage1Result` and no Stage 2 call issued. -/
theorem pipeline_stage_order_witness :
    (executeAnalysis failingStage1Env 0 "INT. ROOM - DAY" true idleState).status =
      .ERROR ∧
    (∃ p, (executeAnalysis failingStage1Env 0 "INT. ROOM - DAY" true
      idleState).project = some p ∧ p.stage1Result = none) ∧
    StageCall.stage2 ∉
      (executeAnalysis failingStage1Env 0 "INT. ROOM - DAY" true idleState).trace :=
  (pipeline_stage_order failingStage1Env 0 "INT. ROOM - DAY" true idleState
    (by decide)).2.2.2 ⟨"Unexpected token in JSON"⟩ rfl

/-- C5: an empty (or all-whitespace) script submission is a local validation
error: `handleAnalysis` reports it and opens nothing, and the pipeline entry
point issues zero stage calls and leaves status, error message and current
project untouched — an idle pipeline stays idle. -/
theorem empty_script_validation (s : String) (h : jsTrim s = "") :
    handleAnalysis s = .validationError "Script content cannot be empty." ∧
    (∀ env now w st, executeAnalysis env now s w st =
      ⟨[], st.status, st.error, st.currentProject⟩) ∧
    (∀ env now w st, st.status = .IDLE →
      (executeAnalysis env now s w st).status = .IDLE ∧
      (executeAnalysis env now s w st).trace = []) := by
  refine ⟨by simp [handleAnalysis, h], ?_, ?_⟩
  · intro env now w st
    simp [executeAnalysis, h]
  · intro env now w st hidle
    simp [executeAnalysis, h, hidle]

/-- Witness for C5: a whitespace-only script yields the validation error and an
idle pipeline run with an empty call trace. -/
theorem empty_script_validation_witness :
    handleAnalysis "  \t " = .validationError "Script content cannot be empty." ∧
    executeAnalysis failingStage1Env 0 "  \t " true idleState =
      ⟨[], .IDLE, none, none⟩ := by
  have h := empty_script_validation "  \t " (by decide)
  refine ⟨h.1, ?_⟩
  rw [h.2.1 failingStage1Env 0 true idleState]
  rfl

def sampleStage1 : Stage1Result :=
  { page_count := 10, logline := "log", acts := [], characters := []
    synopsis := { brief := "b", extended := "e" }
    integrity_check := { issues_found := false, details := "none" } }

/-- Pipeline environment where Stages 1 and 2 succeed and Stage 3 fails. -/
def failingStage3Env : PipelineEnv :=
  { stage1 := fun _ => .ok sampleStage1
    stage2 := fun _ _ _ => .ok sampleStage2
    visuals := visEnvGen
    stage3 := fun _ => .error ⟨"503 UNAVAILABLE"⟩
    extractScenes := fun _ => .ok [] }

/-- C8: when a run on a non-empty script ends in the Error state, a user-facing
error message is recorded and every stage result already produced is preserved
unchanged in the project: `stage1Result` holds Stage 1's parsed result whenever
Stage 1 succeeded, and `stage2Result` holds exactly the committed Stage 2 value
(the raw result, or the visuals-merged result when the visuals batch ran and
succeeded) whenever Stage 2 succeeded. -/
theorem pipeline_error_preserves_partial_results (env : PipelineEnv) (now : Nat)
    (script : String) (w : Bool) (st : AppState) (h : ¬ jsTrim script = "")
    (herr : (executeAnalysis env now script w st).status = .ERROR) :
    (executeAnalysis env now script w st).errorMsg.isSome = true ∧
    (∀ r1, env.stage1 script = .ok r1 →
      ∃ p, (executeAnalysis env now script w st).project = some p ∧
        p.stage1Result = some r1 ∧ p.script = script) ∧
    (∀ r1 r2, env.stage1 script = .ok r1 →
      env.stage2 script r1.logline r1.synopsis.extended = .ok r2 →
      ∃ p, (executeAnalysis env now script w st).project = some p ∧
        p.stage1Result = some r1 ∧
        p.stage2Result = some (if w then
            (match (generateAllVisuals r2 env.visuals).2 with
              | .error _ => r2
              | .ok v => mergeVisuals r2 v)
          else r2)) := by
  rw [executeAnalysis, if_neg h] at herr ⊢
  cases h1 : env.stage1 script with
  | error e1 =>
    have hout : executeAnalysisRun env now script w =
        ⟨[.stage1], .ERROR, some (classifyErrorMessage e1),
          some { createNewProject now with script := script }⟩ := by
      simp [executeAnalysisRun, h1]
    rw [hout]
    refine ⟨rfl, ?_, ?_⟩
    · intro r1 h1'; exact Except.noConfusion h1'
    · intro r1 r2 h1' _; exact Except.noConfusion h1'
  | ok r1 =>
    cases h2 : env.stage2 script r1.logline r1.synopsis.extended with
    | error e2 =>
      have hout : executeAnalysisRun env now script w =
          ⟨[.stage1, .stage2], .ERROR, some (classifyErrorMessage e2),
            some { createNewProject now with script := script, stage1Result := some r1 }⟩ := by
        simp [executeAnalysisRun, h1, h2]
      rw [hout]
      refine ⟨rfl, ?_, ?_⟩
      · intro r1' h1'
        injection h1' with heq
        subst heq
        exact ⟨_, rfl, rfl, rfl⟩
      · intro r1' r2' h1' h2'
        injection h1' with heq
        subst heq
        rw [h2] at h2'
        exact Except.noConfusion h2'
    | ok r2 =>
      cases w with
      | false =>
        cases h3 : env.stage3 script with
        | error e3 =>
          have hout : executeAnalysisRun env now script false =
              ⟨[.stage1, .stage2, .stage3], .ERROR, some (classifyErrorMessage e3),
                some { createNewProject now with script := script, stage1Result := some r1, stage2Result := some r2 }⟩ := by
            simp [executeAnalysisRun, finishStage3, h1, h2, h3]
          rw [hout]
          refine ⟨rfl, ?_, ?_⟩
          · intro r1' h1'
            injection h1' with heq
            subst heq
            exact ⟨_, rfl, rfl, rfl⟩
          · intro r1' r2' h1' h2'
            injection h1' with heq
            subst heq
            rw [h2] at h2'
            injection h2' with heq2
            subst heq2
            exact ⟨_, rfl, rfl, by simp⟩
        | ok r3 =>
          cases h4 : env.extractScenes script with
          | error e4 =>
            have hout : executeAnalysisRun env now script false =
                ⟨[.stage1, .stage2, .stage3, .extractScenes], .ERROR,
                  some (classifyErrorMessage e4),
                  some { createNewProject now with script := script, stage1Result := some r1, stage2Result := some r2 }⟩ := by
              simp [executeAnalysisRun, finishStage3, h1, h2, h3, h4]
            rw [hout]
            refine ⟨rfl, ?_, ?_⟩
            · intro r1' h1'
              injection h1' with heq
              subst heq
              exact ⟨_, rfl, rfl, rfl⟩
            · intro r1' r2' h1' h2'
              injection h1' with heq
              subst heq
              rw [h2] at h2'
              injection h2' with heq2
              subst heq2
              exact ⟨_, rfl, rfl, by simp⟩
          | ok scenes =>
            have hout : executeAnalysisRun env now script false =
                ⟨[.stage1, .stage2, .stage3, .extractScenes], .COMPLETE, none,
                  some { createNewProject now with script := script, stage1Result := some r1, stage2Result := some r2, stage3Result := some r3, fullScenes := some scenes }⟩ := by
              simp [executeAnalysisRun, finishStage3, h1, h2, h3, h4]
            rw [hout] at herr
            simp at herr
      | true =>
        cases hv : (generateAllVisuals r2 env.visuals).2 with
        | error ev =>
          have hout : executeAnalysisRun env now script true =
              ⟨[.stage1, .stage2, .visuals], .ERROR, some (classifyErrorMessage ev),
                some { createNewProject now with script := script, stage1Result := some r1, stage2Result := some r2 }⟩ := by
            simp [executeAnalysisRun, h1, h2, hv]
          rw [hout]
          refine ⟨rfl, ?_, ?_⟩
          · intro r1' h1'
            injection h1' with heq
            subst heq
            exact ⟨_, rfl, rfl, rfl⟩
          · intro r1' r2' h1' h2'
            injection h1' with heq
            subst heq
            rw [h2] at h2'
            injection h2' with heq2
            subst heq2
            exact ⟨_, rfl, rfl, by simp [hv]⟩
        | ok v =>
          cases h3 : env.stage3 script with
          | error e3 =>
            have hout : executeAnalysisRun env now script true =
                ⟨[.stage1, .stage2, .visuals, .stage3], .ERROR,
                  some (classifyErrorMessage e3),
                  some { createNewProject now with script := script, stage1Result := some r1, stage2Result := some (mergeVisuals r2 v) }⟩ := by
              simp [executeAnalysisRun, finishStage3, h1, h2, hv, h3]
            rw [hout]
            refine ⟨rfl, ?_, ?_⟩
            · intro r1' h1'
              injection h1' with heq
              subst heq
              exact ⟨_, rfl, rfl, rfl⟩
            · intro r1' r2' h1' h2'
              injection h1' with heq
              subst heq
              rw [h2] at h2'
              injection h2' with heq2
              subst heq2
              exact ⟨_, rfl, rfl, by simp [hv]⟩
          | ok r3 =>
            cases h4 : env.extractScenes script with
            | error e4 =>
              have hout : executeAnalysisRun env now script true =
                  ⟨[.stage1, .stage2, .visuals, .stage3, .extractScenes], .ERROR,
                    some (classifyErrorMessage e4),
                    some { createNewProject now with script := script, stage1Result := some r1, stage2Result := some (mergeVisuals r2 v) }⟩ := by
                simp [executeAnalysisRun, finishStage3, h1, h2, hv, h3, h4]
              rw [hout]
              refine ⟨rfl, ?_, ?_⟩
              · intro r1' h1'
                injection h1' with heq
                subst heq
                exact ⟨_, rfl, rfl, rfl⟩
              · intro r1' r2' h1' h2'
                injection h1' with heq
                subst heq
                rw [h2] at h2'
                injection h2' with heq2
                subst heq2
                exact ⟨_, rfl, rfl, by simp [hv]⟩
            | ok scenes =>
              have hout : executeAnalysisRun env now script true =
                  ⟨[.stage1, .stage2, .visuals, .stage3, .extractScenes], .COMPLETE,
                    none,
                    some { createNewProject now with script := script, stage1Result := some r1, stage2Result := some (mergeVisuals r2 v), stage3Result := some r3, fullScenes := some scenes }⟩ := by
                simp [executeAnalysisRun, finishStage3, h1, h2, hv, h3, h4]
              rw [hout] at herr
              simp at herr

/-- Witness for C8: Stage 3 fails after Stages 1 and 2 succeeded (no visuals) —
the Error-state project still holds both earlier results unchanged. -/
theorem pipeline_error_preserves_partial_results_witness :
    ∃ p, (executeAnalysis failingStage3Env 0 "INT. ROOM" false idleState).project =
        some p ∧
      p.stage1Result = some sampleStage1 ∧
      p.stage2Result = some (if false then
          (match (generateAllVisuals sampleStage2 failingStage3Env.visuals).2 with
            | .error _ => sampleStage2
            | .ok v => mergeVisuals sampleStage2 v)
        else sampleStage2) :=
  (pipeline_error_preserves_partial_results failingStage3Env 0 "INT. ROOM" false
    idleState (by decide) rfl).2.2 sampleStage1 sampleStage2 rfl rfl

/-- C6: exporting a project to its serialized document and re-importing that
document yields a project with identical script, stage results and per-tool
configuration, but with the prior identity stripped: no persistent id (a new
unsaved project) and fresh timestamps. -/
theorem export_import_round_trip (p : Project) (now : Nat) :
    handleImportProject (handleExportProject p) now =
      { p with id := none, createdAt := now, updatedAt := now } ∧
    (handleImportProject (handleExportProject p) now).script = p.script ∧
    (handleImportProject (handleExportProject p) now).stage1Result = p.stage1Result ∧
    (handleImportProject (handleExportProject p) now).stage2Result = p.stage2Result ∧
    (handleImportProject (handleExportProject p) now).stage3Result = p.stage3Result ∧
    (handleImportProject (handleExportProject p) now).name = p.name ∧
    (handleImportProject (handleExportProject p) now).scriptGeneratorIdea =
      p.scriptGeneratorIdea ∧
    (handleImportProject (handleExportProject p) now).shotIdeaStudioConfig =
      p.shotIdeaStudioConfig ∧
    (handleImportProject (handleExportProject p) now).imageStudioState =
      p.imageStudioState ∧
    (handleImportProject (handleExportProject p) now).storyboardSceneDescription =
      p.storyboardSceneDescription ∧
    (handleImportProject (handleExportProject p) now).id = none :=
  ⟨rfl, rfl, rfl, rfl, rfl, rfl, rfl, rfl, rfl, rfl, rfl⟩

def sampleStage3 : Stage3Result :=
  { scene_breakdown := [], character_breakdown := [], location_breakdown := []
    props_and_set_dressing := [], wardrobe_and_makeup := [], special_requirements := []
    scheduling_suggestions :=
      { total_shooting_days := 1, shooting_schedule := []
        scene_grouping_suggestions := [], cast_scheduling_highlights := []
        day_night_balance := "balanced", complexity_flags := [] }
    departmental_notes := [], risk_assessment := [] }

def completeProject : Project :=
  { createNewProject 0 with script := "s", stage1Result := some sampleStage1, stage2Result := some sampleStage2, stage3Result := some sampleStage3 }

/-- C9: whenever `renderScriptContent` renders the complete results view, the
project it renders is the current project, the status is `COMPLETE`, and all
three stage results are non-null — this guard applies in every reachable state,
in particular after `handleLoadProject` marks a persisted project `COMPLETE`. -/
theorem complete_view_requires_all_results (proj : Option Project)
    (status : AnalysisStatus) (error : Option String) (q : Project)
    (hrender : renderScriptContent proj status error = .analysisResult q) :
    q.stage1Result.isSome = true ∧ q.stage2Result.isSome = true ∧
      q.stage3Result.isSome = true ∧ proj = some q ∧ status = .COMPLETE := by
  cases proj with
  | none => simp [renderScriptContent] at hrender
  | some p =>
    cases status with
    | IDLE => simp [renderScriptContent] at hrender
    | ERROR => simp [renderScriptContent] at hrender
    | ANALYZING_STAGE_1 => simp [renderScriptContent] at hrender
    | ANALYZING_STAGE_2 => simp [renderScriptContent] at hrender
    | ANALYZING_STAGE_2_VISUALS => simp [renderScriptContent] at hrender
    | ANALYZING_STAGE_3 => simp [renderScriptContent] at hrender
    | COMPLETE =>
      by_cases hc : (p.stage1Result.isSome && p.stage2Result.isSome
          && p.stage3Result.isSome) = true
      · have hc' := hc
        simp only [Bool.and_eq_true] at hc'
        simp only [renderScriptContent, hc, if_true] at hrender
        injection hrender with hpq
        subst hpq
        exact ⟨hc'.1.1, hc'.1.2, hc'.2, rfl, rfl⟩
      · simp [renderScriptContent, hc] at hrender

/-- Witness for C9: a project holding all three stage results renders the
complete view, and the theorem recovers the three non-null results. -/
theorem complete_view_requires_all_results_witness :
    completeProject.stage1Result.isSome = true ∧
      completeProject.stage2Result.isSome = true ∧
      completeProject.stage3Result.isSome = true ∧
      (some completeProject : Option Project) = some completeProject ∧
      AnalysisStatus.COMPLETE = AnalysisStatus.COMPLETE :=
  complete_view_requires_all_results (some completeProject) .COMPLETE none
    completeProject rfl

/-- C7: a single predicate — `isRateLimitError`, matching status code '429' or
reason string 'RESOURCE_EXHAUSTED' in the failure message — decides early
batch abort versus per-item degradation: a classified concept-art failure
aborts the visuals batch and propagates while an unclassified one behaves
exactly like an absent image; a classified per-shot failure is the one and only
way the shot fan-out rejects, an unclassified one merely degrading that shot.
For fatal pipeline failures the quota guidance text is shown for classified
errors, the distinct high-demand retry message for service-unavailable errors
('503'/'UNAVAILABLE'/'overloaded'), and the raw failure message otherwise. -/
theorem error_classification (e : JsError) :
    (isRateLimitError e =
      (includesStr e.message "429" || includesStr e.message "RESOURCE_EXHAUSTED")) ∧
    (isRateLimitError e = true → classifyErrorMessage e = quotaErrorMessage) ∧
    (isRateLimitError e = false →
      (includesStr e.message "503" || includesStr e.message "UNAVAILABLE"
        || includesStr e.message "overloaded") = true →
      classifyErrorMessage e = highDemandMessage) ∧
    (isRateLimitError e = false →
      (includesStr e.message "503" || includesStr e.message "UNAVAILABLE"
        || includesStr e.message "overloaded") = false →
      classifyErrorMessage e = e.message) ∧
    (∀ d env, env.conceptArt = .err e →
      (isRateLimitError e = true →
        generateAllVisuals d env = ([.conceptArt], .error e)) ∧
      (isRateLimitError e = false →
        generateAllVisuals d env =
          generateAllVisuals d ⟨.ok [], env.portrait, env.poster, env.stills⟩)) ∧
    (∀ senv data i, senv.structured = .ok data → i < data.shots.length →
      senv.shotImage i = .error e →
      (∀ j, j < data.shots.length → j ≠ i → ∃ b, senv.shotImage j = .ok b) →
      ((∃ e', (generateShotIdeasAndImages senv).2 = .error e') ↔
        isRateLimitError e = true)) := by
  refine ⟨rfl, ?_, ?_, ?_, ?_, ?_⟩
  · intro h
    rw [isRateLimitError] at h
    simp [classifyErrorMessage, h]
  · intro h h503
    rw [isRateLimitError] at h
    simp only [classifyErrorMessage, h, h503]
    simp
  · intro h h503
    rw [isRateLimitError] at h
    simp only [classifyErrorMessage, h, h503]
    simp
  · intro d env hc
    constructor
    · intro hrl
      exact generateAllVisuals_concept_abort d env e hc hrl
    · intro hnrl
      simp [generateAllVisuals, hc, hnrl]
  · intro senv data i hs hi he honly
    constructor
    · rintro ⟨e', herr⟩
      cases hfr : firstRateLimit senv.shotImage data.shots.length with
      | none => simp [generateShotIdeasAndImages, hs, hfr] at herr
      | some e0 =>
        obtain ⟨hrl0, i0, hi0, hei0⟩ :=
          firstRateLimit_some_rl senv.shotImage data.shots.length e0 hfr
        by_cases hii : i0 = i
        · subst hii
          rw [he] at hei0
          injection hei0 with hh
          subst hh
          exact hrl0
        · obtain ⟨b, hb⟩ := honly i0 hi0 hii
          rw [hb] at hei0
          exact Except.noConfusion hei0
    · intro hrl
      cases hfr : firstRateLimit senv.shotImage data.shots.length with
      | none =>
        have hnone := (firstRateLimit_eq_none_iff senv.shotImage
          data.shots.length).mp hfr i hi e he
        rw [hnone] at hrl
        exact Bool.noConfusion hrl
      | some e0 =>
        exact ⟨e0, by simp [generateShotIdeasAndImages, hs, hfr]⟩

/-- Witness for C7: a '503 UNAVAILABLE' failure is not rate-limit-classified
and surfaces as the distinct high-demand message. -/
theorem error_classification_witness :
    classifyErrorMessage ⟨"503 UNAVAILABLE"⟩ = highDemandMessage :=
  (error_classification ⟨"503 UNAVAILABLE"⟩).2.2.1 (by decide) (by decide)
